import Mathlib

/-!
Shallow embedding of the ICU build pipeline scripts: `build_icu.py`
(the configure/Cygwin strategy, class `ICUBuilder`) and
`build_icu_native.py` (the MSBuild project-file strategy, class
`ICUNativeBuilder`).

Filesystem and process effects are modelled as explicit state records.
A step function's ordinary Python return value is a `Bool`; a Python
exception escaping a function body is modelled as `StepOutcome.exn`.
Directory contents are modelled as `Option (List String)`: `none` means
the directory does not exist, `some fs` means it exists and the relevant
glob pattern matches exactly the file names `fs`.
-/

/-- Outcome of one pipeline step function: `ok b` models an ordinary
`return b`; `exn m` models a Python exception escaping the function
body (there is no handler at the step boundary in the scripts). -/
inductive StepOutcome where
  | ok (b : Bool)
  | exn (m : String)
deriving Repr, DecidableEq

/-- The step loop of `ICUBuilder.build` (build_icu.py lines 460-468) and
`ICUNativeBuilder.build` (build_icu_native.py lines 393-401): execute the
steps strictly in order over a state `σ`, recording the names of the
steps actually invoked.  A step returning `False` stops the loop and the
run reports that step's name (`Except.ok (some name)`); if all steps
return `True` the run reports success (`Except.ok none`).  The loop
contains no `try`/`except`, so an exception raised inside a step's
action propagates out of the run (`Except.error`). -/
def runSteps {σ : Type} :
    List (String × (σ → σ × StepOutcome)) → σ →
      σ × List String × Except String (Option String)
  | [], s => (s, [], Except.ok none)
  | (nm, f) :: rest, s =>
    match f s with
    | (s1, StepOutcome.exn m) => (s1, [nm], Except.error m)
    | (s1, StepOutcome.ok false) => (s1, [nm], Except.ok (some nm))
    | (s1, StepOutcome.ok true) =>
      let r := runSteps rest s1
      (r.1, nm :: r.2.1, r.2.2)

/-- Every step of the sequence, run from state `s` in order, returns
`True` (the environment of each later step being the state left by the
earlier ones). -/
def AllSucceed {σ : Type} :
    List (String × (σ → σ × StepOutcome)) → σ → Prop
  | [], _ => True
  | (_, f) :: rest, s => (f s).2 = StepOutcome.ok true ∧ AllSucceed rest (f s).1

/-- `BuildConfig` of build_icu.py (lines 25-42): a plain dataclass whose
constructor performs no validation of its fields. -/
structure BuildConfig where
  arch : String := "x64"
  build_type : String := "Release"
  embed_data : Bool := false
  icu_version : String := "77.1"
  icu_tag : String := "release-77-1"
deriving Repr, DecidableEq

/-- The `lib_prefix` property of `BuildConfig` in build_icu.py:
"s" for static (embedded) data, empty for separate data. -/
def BuildConfig.libPfx (c : BuildConfig) : String :=
  if c.embed_data then "s" else ""

/-- The `artifact_suffix` property of `BuildConfig` in build_icu.py. -/
def BuildConfig.artifact_suffix (c : BuildConfig) : String :=
  if c.embed_data then "static-data" else "separate-data"

/-- `BuildConfig` of build_icu_native.py (lines 25-36). -/
structure NativeConfig where
  arch : String := "x64"
  build_type : String := "Release"
  icu_version : String := "77.1"
  icu_tag : String := "release-77-1"
deriving Repr, DecidableEq

/-- The `artifact_name` property of the native `BuildConfig`. -/
def NativeConfig.artifact_name (c : NativeConfig) : String :=
  "icu-" ++ c.arch ++ "-" ++ c.build_type

/-- The closed architecture set of `main`'s argparse `--arch` choices
(both scripts). -/
def archChoices : List String := ["x64", "x86"]

/-- The closed build-type set of `main`'s argparse `--build-type`
choices (both scripts). -/
def buildTypeChoices : List String := ["Release", "Debug"]

/-- `main` of build_icu.py (lines 474-499): argparse rejects a value of
`--arch` or `--build-type` outside its `choices` list before a
`BuildConfig` is ever constructed; with accepted values it constructs
the config verbatim from the arguments. -/
def parseArgsConfigure (arch buildType : String) (embedData : Bool)
    (version tag : String) : Option BuildConfig :=
  if arch ∈ archChoices then
    if buildType ∈ buildTypeChoices then
      some ⟨arch, buildType, embedData, version, tag⟩
    else none
  else none

/-- The configured default `BuildConfig` of build_icu.py. -/
def icuDefaultConfig : BuildConfig :=
  ⟨"x64", "Release", false, "77.1", "release-77-1"⟩

/-- The configured default native `BuildConfig`. -/
def icuNativeDefaultConfig : NativeConfig :=
  ⟨"x64", "Release", "77.1", "release-77-1"⟩

/-- Filesystem/network state read and written by `download_icu_source`
(identical in both scripts). `downloadFault` models the HTTP request
failing or raising; `extractFault` models `zipfile` extraction raising.
Both are caught by the function's `try`/`except` blocks. -/
structure DlWorld where
  sourceDirPresent : Bool
  sourceZipPresent : Bool
  downloadFault : Bool
  extractFault : Bool
  networkCalls : Nat
deriving Repr, DecidableEq

/-- `ICUBuilder.download_icu_source` (build_icu.py lines 55-92): return
`True` at once when the source directory already exists; otherwise
download the archive when it is missing (one network call; a fault is
caught and yields `False`), then extract it (a fault is caught and
yields `False`). -/
def download_icu_source (w : DlWorld) : DlWorld × Bool :=
  if w.sourceDirPresent then (w, true)
  else if w.sourceZipPresent then
    if w.extractFault then (w, false)
    else ({w with sourceDirPresent := true}, true)
  else
    let w1 := {w with networkCalls := w.networkCalls + 1}
    if w.downloadFault then (w1, false)
    else
      let w2 := {w1 with sourceZipPresent := true}
      if w.extractFault then (w2, false)
      else ({w2 with sourceDirPresent := true}, true)

/-- State read and written by `prepare_source`.  `treePrepared` records
whether the line-ending/permission conversion already happened in a
previous run (a fact about the source tree the function never reads);
`toolchainCalls` counts Cygwin bash invocations; `prepFault` models
`subprocess.run` raising (caught by the function); `prepReturnCode` is
the exit code of the conversion command. -/
structure PrepWorld where
  treePrepared : Bool
  toolchainCalls : Nat
  prepFault : Bool
  prepReturnCode : Int
deriving Repr, DecidableEq

/-- `ICUBuilder.prepare_source` (build_icu.py lines 94-120):
unconditionally invokes the Cygwin conversion command (there is no check
for existing output), returns `False` on a caught exception or a
non-zero exit code, `True` otherwise. -/
def prepare_source (w : PrepWorld) : PrepWorld × Bool :=
  let w1 := {w with toolchainCalls := w.toolchainCalls + 1}
  if w.prepFault then (w1, false)
  else if w.prepReturnCode ≠ 0 then (w1, false)
  else (w1, true)

/-- One candidate output directory offered to the artifact locator:
whether the path exists, and the `*.lib` / `*.exe` files found in it. -/
structure Candidate where
  present : Bool
  libFiles : List String
  exeFiles : List String
deriving Repr, DecidableEq

/-- One candidate data directory: whether the path exists and its
`*.dat` files. -/
structure DataCandidate where
  present : Bool
  datFiles : List String
deriving Repr, DecidableEq

/-- The `*.lib` collection pass of `locate_build_artifacts`
(build_icu_native.py lines 207-221): each existing candidate path
contributes its `.lib` files in order; a missing path is skipped. -/
def collectLibs : List Candidate → List String
  | [] => []
  | c :: rest => (if c.present then c.libFiles else []) ++ collectLibs rest

/-- The `*.exe` collection pass of `locate_build_artifacts`. -/
def collectExes : List Candidate → List String
  | [] => []
  | c :: rest => (if c.present then c.exeFiles else []) ++ collectExes rest

/-- The `*.dat` collection pass over the data candidate paths
(build_icu_native.py lines 224-236 and the data loop of
build_icu.py `package_artifacts`, lines 352-365). -/
def collectDats : List DataCandidate → List String
  | [] => []
  | d :: rest => (if d.present then d.datFiles else []) ++ collectDats rest

/-- The `ArtifactSet` of discovered files (`artifacts` dict of
`locate_build_artifacts`). -/
structure Artifacts where
  lib_files : List String
  exe_files : List String
  dat_files : List String
deriving Repr, DecidableEq

/-- `ICUNativeBuilder.locate_build_artifacts` (build_icu_native.py lines
187-238): walk the candidate paths and the data candidate paths, guard
every access behind an existence check, and return whatever was found
(empty collections are a valid result). -/
def locate_build_artifacts (cands : List Candidate)
    (dcands : List DataCandidate) : Artifacts :=
  ⟨collectLibs cands, collectExes cands, collectDats dcands⟩

/-- State read and written by `ICUBuilder.package_artifacts`.
`rmtreeFault` models `shutil.rmtree` raising on the stale artifact
directory and `zipFault` models archive creation raising; the function
body has no `try`/`except`, so either fault escapes it. -/
structure CfgPackageWorld where
  artifactDirPresent : Bool
  rmtreeFault : Bool
  buildLibFiles : Option (List String)
  buildIncludePresent : Bool
  buildBinFiles : Option (List String)
  dataCandidates : List DataCandidate
  zipFault : Bool
  outLib : List String
  outIncludeCopied : Bool
  outBin : List String
  outData : List String
  archive : Option String
deriving Repr, DecidableEq

/-- `ICUBuilder.package_artifacts` (build_icu.py lines 311-395): remove
a stale artifact directory, create the canonical tree, copy the `.lib`
files when the build lib directory exists (with no check that any were
found), copy headers and binaries likewise, collect `.dat` files from
the data candidate paths when data is separate, write the build-info
manifest and the zip archive, and return `True`; there is no failure
return in the function. -/
def package_artifacts_configure (cfg : BuildConfig) (w : CfgPackageWorld) :
    CfgPackageWorld × StepOutcome :=
  if w.artifactDirPresent && w.rmtreeFault then
    (w, StepOutcome.exn "rmtree failed")
  else
    let libs := match w.buildLibFiles with
      | some fs => fs
      | none => []
    let bins := match w.buildBinFiles with
      | some fs => fs
      | none => []
    let dats := if cfg.embed_data then [] else collectDats w.dataCandidates
    let w1 := {w with artifactDirPresent := true,
                      outLib := libs,
                      outIncludeCopied := w.buildIncludePresent,
                      outBin := bins,
                      outData := dats}
    if w.zipFault then (w1, StepOutcome.exn "zip write failed")
    else
      ({w1 with archive := some ("icu-" ++ cfg.arch ++ "-" ++ cfg.build_type
            ++ "-" ++ BuildConfig.artifact_suffix cfg ++ ".zip")},
       StepOutcome.ok true)

/-- State read and written by `ICUNativeBuilder.package_artifacts`:
the candidate paths handed to the locator, the three unicode header
source directories, and the canonical output tree. -/
structure NativePackageWorld where
  candidates : List Candidate
  dataCandidates : List DataCandidate
  headerDirs : List (Option (List String))
  artifactDirPresent : Bool
  outLib : List String
  outHeaders : List String
  outBin : List String
  outData : List String
  archive : Option String
  msgs : List String
deriving Repr, DecidableEq

/-- Header collection of the native packager (build_icu_native.py lines
270-283): each existing header directory contributes its `.h` files. -/
def collectHeaders : List (Option (List String)) → List String
  | [] => []
  | some hs :: rest => hs ++ collectHeaders rest
  | none :: rest => collectHeaders rest

/-- `ICUNativeBuilder.package_artifacts` (build_icu_native.py lines
240-327): locate the artifacts first; when the located `.lib`
collection is empty, report a diagnostic and return `False` before any
directory or archive is written; otherwise build the canonical tree,
copy everything, warn when no `.dat` files were located, and write the
archive. -/
def package_artifacts_native (cfg : NativeConfig) (w : NativePackageWorld) :
    NativePackageWorld × StepOutcome :=
  let arts := locate_build_artifacts w.candidates w.dataCandidates
  if arts.lib_files.isEmpty then
    ({w with msgs := w.msgs ++ ["No .lib files found in any expected location"]},
     StepOutcome.ok false)
  else
    let w1 := {w with artifactDirPresent := true,
                      outLib := arts.lib_files,
                      outHeaders := collectHeaders w.headerDirs,
                      outBin := arts.exe_files,
                      outData := arts.dat_files,
                      msgs := w.msgs ++
                        (if arts.dat_files.isEmpty then
                          ["No .dat files found - ICU data may be incomplete"]
                         else [])}
    ({w1 with archive := some (NativeConfig.artifact_name cfg ++ ".zip")},
     StepOutcome.ok true)

/-- State inspected by `ICUBuilder.verify_build`: note it is the
install/build directory (`self.build_dir`), not the packaged artifact
directory, that this verifier reads.  `buildLib` is `build_dir/lib`
(`none` = directory missing, otherwise its `*.lib` names);
`buildIncludeUnicode` is `build_dir/include/unicode` with its `*.h`
names. -/
structure CfgVerifyWorld where
  buildLib : Option (List String)
  buildIncludeUnicode : Option (List String)
deriving Repr, DecidableEq

/-- `ICUBuilder.verify_build` (build_icu.py lines 397-440), returning
the success bit together with the warning messages printed.  Failure
cases: lib directory missing, zero `.lib` files, header directory
missing.  An existing header directory passes even with zero `.h` files
(only a count is printed).  With embedded data, absence of the
`{lib_prefix}icudt.lib` file only prints a warning; with separate data
no data check is performed at all. -/
def verify_build_configure (cfg : BuildConfig) (w : CfgVerifyWorld) :
    Bool × List String :=
  match w.buildLib with
  | none => (false, ["Library directory not found"])
  | some libs =>
    if libs.isEmpty then (false, ["No library files found"])
    else
      match w.buildIncludeUnicode with
      | none => (false, ["Headers not found"])
      | some _hdrs =>
        if cfg.embed_data then
          if (BuildConfig.libPfx cfg ++ "icudt.lib") ∈ libs then (true, [])
          else (true, ["Data library not found"])
        else (true, [])

/-- State inspected by `ICUNativeBuilder.verify_build`: the packaged
artifact directory (`lib`, `include/unicode`, `data` subdirectories). -/
structure NativeVerifyWorld where
  artifactLib : Option (List String)
  artifactIncludeUnicode : Option (List String)
  artifactData : Option (List String)
deriving Repr, DecidableEq

/-- `ICUNativeBuilder.verify_build` (build_icu_native.py lines 329-375):
same mandatory checks as the configure verifier (lib directory exists,
at least one `.lib` file, header directory exists); an existing `data`
directory with zero `.dat` files only produces a warning. -/
def verify_build_native (w : NativeVerifyWorld) : Bool × List String :=
  match w.artifactLib with
  | none => (false, ["Library directory not found"])
  | some libs =>
    if libs.isEmpty then (false, ["No library files found"])
    else
      match w.artifactIncludeUnicode with
      | none => (false, ["Headers not found"])
      | some _hdrs =>
        match w.artifactData with
        | none => (true, [])
        | some dats =>
          if dats.isEmpty then (true, ["No data files found"]) else (true, [])

/-- State read and written by `update_visual_studio_toolset`:
the project-configuration props file (`none` = missing), and fault
switches for reading and writing it (both caught by the function's
`try`/`except`). -/
structure PropsWorld where
  propsFile : Option String
  readFault : Bool
  writeFault : Bool
deriving Repr, DecidableEq

/-- Substring test used to model Python's `pat in content`. -/
def containsSub (s pat : String) : Bool :=
  decide (2 ≤ (s.splitOn pat).length)

/-- The v141 toolset marker replaced by `update_visual_studio_toolset`. -/
def toolset141 : String := "<PlatformToolset>v141</PlatformToolset>"

/-- The v140 toolset marker replaced by `update_visual_studio_toolset`. -/
def toolset140 : String := "<PlatformToolset>v140</PlatformToolset>"

/-- The v143 toolset marker written by `update_visual_studio_toolset`. -/
def toolset143 : String := "<PlatformToolset>v143</PlatformToolset>"

/-- `ICUNativeBuilder.update_visual_studio_toolset`
(build_icu_native.py lines 107-138): missing props file returns `True`
("not critical, continue"); a caught exception while reading or writing
returns `True`; when one of the old toolset markers occurs it is
replaced (the second check runs on the already-replaced text) and the
file rewritten; every path returns `True`. -/
def update_visual_studio_toolset (w : PropsWorld) : PropsWorld × Bool :=
  match w.propsFile with
  | none => (w, true)
  | some content =>
    if w.readFault then (w, true)
    else if containsSub content toolset141 then
      let c1 := content.replace toolset141 toolset143
      let c2 := if containsSub c1 toolset140 then
          c1.replace toolset140 toolset143
        else c1
      if w.writeFault then (w, true)
      else ({w with propsFile := some c2}, true)
    else if containsSub content toolset140 then
      let c2 := content.replace toolset140 toolset143
      if w.writeFault then (w, true)
      else ({w with propsFile := some c2}, true)
    else (w, true)

/-- A packaging state in which removing the stale artifact directory
raises (`shutil.rmtree` fault, e.g. an unreadable filesystem). -/
def faultyCfgPkgWorld : CfgPackageWorld :=
  { artifactDirPresent := true, rmtreeFault := true,
    buildLibFiles := some ["icuuc.lib"], buildIncludePresent := true,
    buildBinFiles := none, dataCandidates := [], zipFault := false,
    outLib := [], outIncludeCopied := false, outBin := [], outData := [],
    archive := none }

/-- A packaging state whose build lib directory exists but holds zero
`.lib` files (an empty located library collection), with no faults. -/
def emptyCfgPkgWorld : CfgPackageWorld :=
  { artifactDirPresent := false, rmtreeFault := false,
    buildLibFiles := some [], buildIncludePresent := true,
    buildBinFiles := none, dataCandidates := [], zipFault := false,
    outLib := [], outIncludeCopied := false, outBin := [], outData := [],
    archive := none }

/-- A native packaging state in which the single candidate output
directory does not exist, so the locator finds nothing. -/
def emptyNativePkgWorld : NativePackageWorld :=
  { candidates := [⟨false, ["icuuc.lib"], []⟩], dataCandidates := [],
    headerDirs := [], artifactDirPresent := false, outLib := [],
    outHeaders := [], outBin := [], outData := [], archive := none,
    msgs := [] }

/-! ## Helper lemmas -/

/-- A nonempty list has `isEmpty = false`. -/
theorem isEmpty_false_of_ne_nil {α : Type} {l : List α} (h : l ≠ []) :
    l.isEmpty = false := by
  cases l with
  | nil => exact absurd rfl h
  | cons a t => rfl

/-- A step sequence in which every step succeeds produces an overall
success result. -/
theorem runSteps_ok_of_allSucceed {σ : Type}
    (steps : List (String × (σ → σ × StepOutcome))) (s : σ)
    (h : AllSucceed steps s) : (runSteps steps s).2.2 = Except.ok none := by
  induction steps generalizing s with
  | nil => rfl
  | cons p rest ih =>
    obtain ⟨nm, f⟩ := p
    simp only [AllSucceed] at h
    obtain ⟨h1, h2⟩ := h
    rcases hfs : f s with ⟨s1, out⟩
    rw [hfs] at h1 h2
    simp only at h1 h2
    subst h1
    simp only [runSteps, hfs]
    exact ih s1 h2

/-- Running a step list that starts with a fully successful segment
`pre` continues with the rest of the list from the state `pre` left. -/
theorem runSteps_append_of_pre {σ : Type}
    (pre rest : List (String × (σ → σ × StepOutcome))) (s s₁ : σ)
    (hpre : runSteps pre s = (s₁, pre.map Prod.fst, Except.ok none)) :
    runSteps (pre ++ rest) s =
      ((runSteps rest s₁).1,
       pre.map Prod.fst ++ (runSteps rest s₁).2.1,
       (runSteps rest s₁).2.2) := by
  induction pre generalizing s with
  | nil =>
    simp only [runSteps, List.map_nil, Prod.mk.injEq] at hpre
    obtain ⟨h1, -, -⟩ := hpre
    subst h1
    rfl
  | cons p pre' ih =>
    obtain ⟨nm, f⟩ := p
    rcases hfs : f s with ⟨s', out⟩
    cases out with
    | exn m =>
      rw [show runSteps ((nm, f) :: pre') s = (s', [nm], Except.error m) from by
        simp [runSteps, hfs]] at hpre
      simp at hpre
    | ok b =>
      cases b with
      | false =>
        rw [show runSteps ((nm, f) :: pre') s
            = (s', [nm], Except.ok (some nm)) from by simp [runSteps, hfs]] at hpre
        simp at hpre
      | true =>
        have h3 := hpre
        simp only [runSteps, hfs, List.map_cons, Prod.mk.injEq,
          List.cons.injEq, true_and] at h3
        obtain ⟨e1, e2, e3⟩ := h3
        have hrec : runSteps pre' s' = (s₁, pre'.map Prod.fst, Except.ok none) := by
          have heta : runSteps pre' s'
              = ((runSteps pre' s').1, (runSteps pre' s').2.1,
                 (runSteps pre' s').2.2) := rfl
          rw [heta, e1, e2, e3]
        have ihh := ih s' hrec
        show runSteps ((nm, f) :: (pre' ++ rest)) s = _
        simp only [runSteps, hfs, ihh, List.map_cons, List.cons_append]

/-! ## Claim theorems -/

/-- C1: for every step sequence run by the Pipeline loop, if step k
fails (returns `False`) then no step after k is invoked, the failing
step's name is reported, and the run returns failure; if every step
succeeds the run returns success. -/
theorem pipeline_halts_on_first_failure {σ : Type}
    (pre : List (String × (σ → σ × StepOutcome))) (nk : String)
    (fk : σ → σ × StepOutcome)
    (post : List (String × (σ → σ × StepOutcome))) (s s₁ s₂ : σ)
    (hpre : runSteps pre s = (s₁, pre.map Prod.fst, Except.ok none))
    (hfail : fk s₁ = (s₂, StepOutcome.ok false)) :
    runSteps (pre ++ (nk, fk) :: post) s
        = (s₂, pre.map Prod.fst ++ [nk], Except.ok (some nk))
    ∧ ∀ (steps : List (String × (σ → σ × StepOutcome))) (t : σ),
        AllSucceed steps t → (runSteps steps t).2.2 = Except.ok none := by
  refine ⟨?_, fun steps t h => runSteps_ok_of_allSucceed steps t h⟩
  rw [runSteps_append_of_pre pre _ s s₁ hpre]
  simp [runSteps, hfail]

/-- Witness for C1: a three-step stub sequence over a counter state in
which the second step fails; only the first two steps are invoked and
the run reports the failing step's name. -/
theorem pipeline_halts_on_first_failure_witness :
    runSteps ([("Download ICU source", fun n => (n + 1, StepOutcome.ok true))]
        ++ ("Configure build", fun n : Nat => (n, StepOutcome.ok false))
          :: [("Verify build", fun n => (n, StepOutcome.ok true))]) 0
      = (1, ["Download ICU source", "Configure build"],
          Except.ok (some "Configure build")) :=
  (pipeline_halts_on_first_failure
      [("Download ICU source", fun n => (n + 1, StepOutcome.ok true))]
      "Configure build" (fun n : Nat => (n, StepOutcome.ok false))
      [("Verify build", fun n => (n, StepOutcome.ok true))] 0 1 1
      (by rfl) (by rfl)).1

/-- C4 counterexample: a fault raised inside the `Package artifacts`
step of the configure strategy (its body has no exception handler)
propagates out of the pipeline run as an uncaught exception instead of
being converted into the ordinary step-failure shape. -/
theorem package_fault_escapes_pipeline_cex :
    (runSteps [("Package artifacts",
        fun w => package_artifacts_configure icuDefaultConfig w)]
      faultyCfgPkgWorld).2.2 = Except.error "rmtree failed" := rfl

/-- C4 (amended): an unexpected fault in a step halts the pipeline
without invoking later steps, but the loop has no handler, so it is
rethrown rather than converted into the ordinary failure shape; steps
with internal handlers (such as source download) do convert their own
faults into an ordinary `False` result. -/
theorem pipeline_fault_halts_but_rethrows {σ : Type}
    (pre : List (String × (σ → σ × StepOutcome))) (nk : String)
    (fk : σ → σ × StepOutcome)
    (post : List (String × (σ → σ × StepOutcome))) (s s₁ s₂ : σ) (m : String)
    (hpre : runSteps pre s = (s₁, pre.map Prod.fst, Except.ok none))
    (hexn : fk s₁ = (s₂, StepOutcome.exn m)) :
    runSteps (pre ++ (nk, fk) :: post) s
        = (s₂, pre.map Prod.fst ++ [nk], Except.error m)
    ∧ ∀ w : DlWorld, w.sourceDirPresent = false → w.sourceZipPresent = false →
        w.downloadFault = true → (download_icu_source w).2 = false := by
  constructor
  · rw [runSteps_append_of_pre pre _ s s₁ hpre]
    simp [runSteps, hexn]
  · intro w h1 h2 h3
    simp [download_icu_source, h1, h2, h3]

/-- Witness for C4 (amended): the faulting packaging step run as the
only pipeline step. -/
theorem pipeline_fault_halts_but_rethrows_witness :
    runSteps ([] ++ ("Package artifacts",
        fun w => package_artifacts_configure icuDefaultConfig w) :: [])
      faultyCfgPkgWorld
      = (faultyCfgPkgWorld, ["Package artifacts"], Except.error "rmtree failed") :=
  (pipeline_fault_halts_but_rethrows [] "Package artifacts"
      (fun w => package_artifacts_configure icuDefaultConfig w) []
      faultyCfgPkgWorld faultyCfgPkgWorld faultyCfgPkgWorld
      "rmtree failed" (by rfl) (by rfl)).1

/-- C5 counterexample: on a state whose source tree is already
converted (`treePrepared = true`), `prepare_source` still performs one
toolchain invocation — it checks nothing before doing its work — even
though it does return success. -/
theorem prepare_source_redoes_work_cex :
    (prepare_source ⟨true, 0, false, 0⟩).1.toolchainCalls = 1
    ∧ (prepare_source ⟨true, 0, false, 0⟩).2 = true := ⟨rfl, rfl⟩

/-- C5 (amended): source acquisition is guarded — with a pre-existing
source directory it returns success immediately, with zero network
calls and no state change; the preparation step, by contrast, performs
its conversion work unconditionally on every invocation. -/
theorem download_idempotent_prepare_unconditional (w : DlWorld)
    (h : w.sourceDirPresent = true) :
    download_icu_source w = (w, true)
    ∧ ∀ p : PrepWorld,
        (prepare_source p).1.toolchainCalls = p.toolchainCalls + 1 := by
  constructor
  · simp [download_icu_source, h]
  · intro p
    unfold prepare_source
    by_cases h1 : p.prepFault <;> by_cases h2 : p.prepReturnCode ≠ 0 <;>
      simp [h1, h2]

/-- Witness for C5 (amended): a state with the source directory already
present. -/
theorem download_idempotent_prepare_unconditional_witness :
    download_icu_source ⟨true, false, false, false, 0⟩
      = (⟨true, false, false, false, 0⟩, true) :=
  (download_idempotent_prepare_unconditional ⟨true, false, false, false, 0⟩ rfl).1

/-- C8: the artifact locator silently skips each non-existent candidate
path (removing an absent candidate, of either kind, does not change the
result), and when no candidate path exists it returns an artifact set
with all collections empty; being a total function it never raises. -/
theorem locator_tolerates_missing_paths :
    (∀ (cands : List Candidate) (dcands : List DataCandidate),
        (∀ c ∈ cands, c.present = false) → (∀ d ∈ dcands, d.present = false) →
        locate_build_artifacts cands dcands = ⟨[], [], []⟩)
    ∧ (∀ (c : Candidate) (cands : List Candidate) (dcands : List DataCandidate),
        c.present = false →
        locate_build_artifacts (c :: cands) dcands
          = locate_build_artifacts cands dcands)
    ∧ (∀ (d : DataCandidate) (cands : List Candidate)
          (dcands : List DataCandidate), d.present = false →
        locate_build_artifacts cands (d :: dcands)
          = locate_build_artifacts cands dcands) := by
  have hlib : ∀ (cands : List Candidate),
      (∀ c ∈ cands, c.present = false) → collectLibs cands = [] := by
    intro cands h
    induction cands with
    | nil => rfl
    | cons c rest ih =>
      have hc := h c (List.mem_cons_self c rest)
      simp [collectLibs, hc, ih fun d hd => h d (List.mem_cons_of_mem c hd)]
  have hexe : ∀ (cands : List Candidate),
      (∀ c ∈ cands, c.present = false) → collectExes cands = [] := by
    intro cands h
    induction cands with
    | nil => rfl
    | cons c rest ih =>
      have hc := h c (List.mem_cons_self c rest)
      simp [collectExes, hc, ih fun d hd => h d (List.mem_cons_of_mem c hd)]
  have hdat : ∀ (dcands : List DataCandidate),
      (∀ d ∈ dcands, d.present = false) → collectDats dcands = [] := by
    intro dcands h
    induction dcands with
    | nil => rfl
    | cons d rest ih =>
      have hd := h d (List.mem_cons_self d rest)
      simp [collectDats, hd, ih fun e he => h e (List.mem_cons_of_mem d he)]
  refine ⟨?_, ?_, ?_⟩
  · intro cands dcands h1 h2
    simp [locate_build_artifacts, hlib cands h1, hexe cands h1, hdat dcands h2]
  · intro c cands dcands hc
    simp [locate_build_artifacts, collectLibs, collectExes, hc]
  · intro d cands dcands hd
    simp [locate_build_artifacts, collectDats, hd]

/-- Witness for C8: one absent candidate of each kind yields the
all-empty artifact set. -/
theorem locator_tolerates_missing_paths_witness :
    locate_build_artifacts [⟨false, ["icuuc.lib"], ["genccode.exe"]⟩]
        [⟨false, ["icudt77l.dat"]⟩] = ⟨[], [], []⟩ :=
  locator_tolerates_missing_paths.1 _ _ (by decide) (by decide)

/-- C9 counterexample: the `BuildConfig` dataclass constructor accepts
an architecture and a build type outside the closed value sets — no
validation happens at construction of the value. -/
theorem buildconfig_constructor_no_validation_cex :
    (BuildConfig.mk "arm64" "Fast" false "77.1" "release-77-1").arch = "arm64"
    ∧ "arm64" ∉ archChoices ∧ "Fast" ∉ buildTypeChoices :=
  ⟨rfl, by decide, by decide⟩

/-- C9 (amended): the enumerated fields are validated against their
closed value sets by the command-line parser in `main` (argparse
`choices`), before any `BuildConfig` is constructed: whenever parsing
succeeds the constructed config's architecture and build type lie in
the closed sets, and the config is exactly the parsed arguments (no
later mutation occurs in the functional model). -/
theorem main_argparse_validates_choices (arch bt : String) (e : Bool)
    (v t : String) (cfg : BuildConfig)
    (h : parseArgsConfigure arch bt e v t = some cfg) :
    cfg.arch ∈ archChoices ∧ cfg.build_type ∈ buildTypeChoices
    ∧ cfg = ⟨arch, bt, e, v, t⟩ := by
  unfold parseArgsConfigure at h
  by_cases h1 : arch ∈ archChoices
  · by_cases h2 : bt ∈ buildTypeChoices
    · rw [if_pos h1, if_pos h2] at h
      obtain rfl : (⟨arch, bt, e, v, t⟩ : BuildConfig) = cfg := Option.some.inj h
      exact ⟨h1, h2, rfl⟩
    · rw [if_pos h1, if_neg h2] at h
      exact absurd h (by simp)
  · rw [if_neg h1] at h
    exact absurd h (by simp)

/-- Witness for C9 (amended): parsing the default arguments yields the
default config with in-range fields. -/
theorem main_argparse_validates_choices_witness :
    icuDefaultConfig.arch ∈ archChoices
    ∧ icuDefaultConfig.build_type ∈ buildTypeChoices
    ∧ icuDefaultConfig = ⟨"x64", "Release", false, "77.1", "release-77-1"⟩ :=
  main_argparse_validates_choices "x64" "Release" false "77.1" "release-77-1"
    icuDefaultConfig (by decide)

/-- C10: the toolset-update step of the project-file strategy returns
success in every filesystem state — props file missing, reading it
faulting, a replacement applying with or without a write fault, or
nothing to replace — so it can never be the step that halts the
pipeline. -/
theorem toolset_update_always_succeeds (w : PropsWorld) :
    (update_visual_studio_toolset w).2 = true := by
  rcases w with ⟨pf, rf, wf⟩
  cases pf with
  | none => rfl
  | some content =>
    simp only [update_visual_studio_toolset]
    cases rf with
    | true => rfl
    | false =>
      cases h1 : containsSub content toolset141 with
      | true => cases wf <;> simp [h1]
      | false =>
        cases h2 : containsSub content toolset140 with
        | true => cases wf <;> simp [h1, h2]
        | false => simp [h1, h2]

/-- C2 counterexample: the configure strategy's packaging, given a
build lib directory that exists with zero `.lib` files (an empty
located library collection), returns success and writes the archive —
it performs no empty-library check. -/
theorem package_configure_empty_libs_cex :
    (package_artifacts_configure icuDefaultConfig emptyCfgPkgWorld).2
        = StepOutcome.ok true
    ∧ (package_artifacts_configure icuDefaultConfig emptyCfgPkgWorld).1.archive
        = some "icu-x64-Release-separate-data.zip"
    ∧ (package_artifacts_configure icuDefaultConfig emptyCfgPkgWorld).1.outLib
        = [] := ⟨rfl, rfl, rfl⟩

/-- C2 (amended): in the project-file-driven strategy, a located
artifact set with an empty library-file collection makes packaging
report the diagnostic and return failure, with no archive written; the
configure-driven strategy performs no such check. -/
theorem package_empty_libs_native_fails (cfg : NativeConfig)
    (w : NativePackageWorld)
    (h : (locate_build_artifacts w.candidates w.dataCandidates).lib_files = []) :
    (package_artifacts_native cfg w).2 = StepOutcome.ok false
    ∧ (package_artifacts_native cfg w).1.archive = w.archive
    ∧ (package_artifacts_native cfg w).1.msgs
        = w.msgs ++ ["No .lib files found in any expected location"] := by
  have h' : collectLibs w.candidates = [] := h
  simp [package_artifacts_native, locate_build_artifacts, h']

/-- Witness for C2 (amended): a state whose only candidate directory is
absent, so the locator finds no libraries. -/
theorem package_empty_libs_native_fails_witness :
    (package_artifacts_native icuNativeDefaultConfig emptyNativePkgWorld).2
        = StepOutcome.ok false
    ∧ (package_artifacts_native icuNativeDefaultConfig emptyNativePkgWorld).1.archive
        = emptyNativePkgWorld.archive
    ∧ (package_artifacts_native icuNativeDefaultConfig emptyNativePkgWorld).1.msgs
        = emptyNativePkgWorld.msgs
            ++ ["No .lib files found in any expected location"] :=
  package_empty_libs_native_fails icuNativeDefaultConfig emptyNativePkgWorld
    (by rfl)

/-- C3 counterexample: a header subdirectory that exists but contains
zero header files passes verification in both strategies (with the
library check satisfied); only the count is printed. -/
theorem verify_zero_headers_passes_cex :
    (verify_build_configure icuDefaultConfig
        ⟨some ["icuuc.lib"], some []⟩).1 = true
    ∧ (verify_build_native ⟨some ["icuuc.lib"], some [], none⟩).1 = true :=
  ⟨rfl, rfl⟩

/-- C3 (amended): given that the mandatory library check passed,
verification returns failure naming headers exactly when the header
subdirectory is absent; moreover the configure strategy inspects the
install (build) directory, not the packaged output directory (see
`CfgVerifyWorld`), while the native strategy inspects the packaged
directory. -/
theorem verify_fails_when_header_dir_absent (cfg : BuildConfig)
    (libs : List String) (dat : Option (List String)) (h : libs ≠ []) :
    verify_build_configure cfg ⟨some libs, none⟩
        = (false, ["Headers not found"])
    ∧ verify_build_native ⟨some libs, none, dat⟩
        = (false, ["Headers not found"]) := by
  have hE : libs.isEmpty = false := isEmpty_false_of_ne_nil h
  constructor
  · simp [verify_build_configure, hE]
  · simp [verify_build_native, hE]

/-- Witness for C3 (amended): one library file, header directory
absent. -/
theorem verify_fails_when_header_dir_absent_witness :
    verify_build_configure icuDefaultConfig ⟨some ["icuuc.lib"], none⟩
        = (false, ["Headers not found"])
    ∧ verify_build_native ⟨some ["icuuc.lib"], none, none⟩
        = (false, ["Headers not found"]) :=
  verify_fails_when_header_dir_absent icuDefaultConfig ["icuuc.lib"] none
    (by decide)

/-- C6 counterexample: on an empty located library collection the two
strategies diverge in the shared post-build packaging decision — the
configure strategy packages successfully while the native strategy
fails. -/
theorem post_build_packaging_divergence_cex :
    (package_artifacts_configure icuDefaultConfig emptyCfgPkgWorld).2
        = StepOutcome.ok true
    ∧ (package_artifacts_native icuNativeDefaultConfig emptyNativePkgWorld).2
        = StepOutcome.ok false := ⟨rfl, rfl⟩

/-- C6 (amended): the two strategies share the verification success
decision — as a function of the inspected directory's library and
header contents the two verifiers return the same success bit — but
their packaging diverges on the empty-library check and their
verifiers inspect different directories. -/
theorem verify_decision_agreement (cfg : BuildConfig)
    (libs hdrs dat : Option (List String)) :
    (verify_build_configure cfg ⟨libs, hdrs⟩).1
      = (verify_build_native ⟨libs, hdrs, dat⟩).1 := by
  rcases libs with _ | fs
  · rfl
  rcases hdrs with _ | hs <;> rcases dat with _ | ds <;>
    cases hE : fs.isEmpty <;>
      simp [verify_build_configure, verify_build_native, hE] <;>
      (repeat' split) <;> rfl

/-- C7 counterexample: with separate data packaging, the configure
strategy's verification performs no data check at all — zero standalone
data files produce success with no warning (the warning for missing
`.dat` files is printed by the packaging step instead). -/
theorem verify_separate_data_no_warning_cex :
    verify_build_configure icuDefaultConfig
        ⟨some ["icuuc.lib"], some ["utypes.h"]⟩ = (true, []) := rfl

/-- C7 (amended): data absence never fails verification: with embedded
data, absence of the library file named by the configured marker yields
a warning and overall success; with separate data the configure
verifier performs no data check (success, no warning); the native
verifier warns on a packaged data directory with zero `.dat` files and
still succeeds. -/
theorem verify_data_absence_never_fails (cfg : BuildConfig)
    (libs hdrs : List String) (hl : libs ≠ []) :
    (cfg.embed_data = true → (BuildConfig.libPfx cfg ++ "icudt.lib") ∉ libs →
        verify_build_configure cfg ⟨some libs, some hdrs⟩
          = (true, ["Data library not found"]))
    ∧ (cfg.embed_data = false →
        verify_build_configure cfg ⟨some libs, some hdrs⟩ = (true, []))
    ∧ verify_build_native ⟨some libs, some hdrs, some []⟩
        = (true, ["No data files found"]) := by
  have hE : libs.isEmpty = false := isEmpty_false_of_ne_nil hl
  refine ⟨?_, ?_, ?_⟩
  · intro he hm
    simp [verify_build_configure, hE, he, hm]
  · intro he
    simp [verify_build_configure, hE, he]
  · simp [verify_build_native, hE]

/-- Witness for C7 (amended): embedded-data config, data library file
absent from the lib directory. -/
theorem verify_data_absence_never_fails_witness :
    verify_build_configure ⟨"x64", "Release", true, "77.1", "release-77-1"⟩
        ⟨some ["icuuc.lib"], some ["utypes.h"]⟩
      = (true, ["Data library not found"]) :=
  ((verify_data_absence_never_fails
      ⟨"x64", "Release", true, "77.1", "release-77-1"⟩
      ["icuuc.lib"] ["utypes.h"] (by decide)).1 rfl (by decide))
